import Mathlib

/-!
Shallow embedding of the transaction signing and broadcast pipeline of the
irishub-sdk-js repository (`src/modules/tx.ts`, with `Bank.queryAccount`
from `src/modules/bank.ts`), together with theorems checking the
specification claims against it.

External collaborators (the key store, the crypto primitives, the RPC
transport, the account query) are modelled as an explicit environment of
pure oracles; the observable effects a call performs (key-store reads and
network queries) are returned as an explicit trace, in source order.
Machine strings stay strings; JavaScript truthiness over optional string
and number fields is made explicit by the `jsFalsyStr` / `jsOr` helpers.
-/

set_option autoImplicit false

namespace IrisSdk

/-- Modelled from the spec: the public-key algorithm tag of a key
(`types.PubkeyType`; the `types` module is not among the embedded
sources). -/
inductive PubkeyType
  | secp256k1
  | ed25519
  | sm2
deriving DecidableEq, Repr

/-- Modelled from the spec: the broadcast modes (`types.BroadcastMode`):
Async, Sync or Commit delivery confidence. -/
inductive BroadcastMode
  | Commit
  | Sync
  | Async
deriving DecidableEq, Repr

/-- Modelled from the spec: the error codes (`CODES` of `src/errors.ts`,
not among the embedded sources). `default` is the code an `SdkError`
built without an explicit code carries (the spec error taxonomy calls
those ValidationError); `chain n` is a chain response code `n` attached
to an error raised at a check or delivery phase. The named codes are the
ones `tx.ts` mentions: `Panic`, `KeyNotFound`, `InvalidPassword`,
`InvalidType`, `Internal`. -/
inductive Code
  | default
  | panic
  | keyNotFound
  | invalidPassword
  | invalidType
  | internal
  | chain (n : Nat)
deriving DecidableEq, Repr

/-- The `SdkError` thrown by the module: a message and a code. -/
structure SdkError where
  msg : String
  code : Code
deriving DecidableEq, Repr

/-- JavaScript truthiness of an optional string: `undefined` and the empty
string are falsy (`!x` in the source). -/
def jsFalsyStr (o : Option String) : Bool :=
  match o with
  | none => true
  | some s => decide (s = "")

/-- JavaScript `s || d` on strings: the empty string falls back to the
default. -/
def jsOr (s d : String) : String :=
  if s = "" then d else s

/-- JavaScript `o || d` on an optional string. -/
def jsOrOpt (o : Option String) (d : String) : String :=
  match o with
  | none => d
  | some s => jsOr s d

/-- JavaScript `s || undefined` on a string: the empty string becomes
`undefined`. -/
def jsOrUndef (s : String) : Option String :=
  if s = "" then none else some s

/-- The caller-supplied base transaction parameters (`types.BaseTx`): the
fields `tx.ts` reads. `from_` stands for the source field `from`. -/
structure BaseTx where
  from_ : String
  password : String
  account_number : Option String
  sequence : Option String
  pubkeyType : PubkeyType
  mode : Option BroadcastMode
deriving DecidableEq, Repr

/-- A key-store record (`keyDAO.read` result): the fields `tx.ts` reads. -/
structure KeyObj where
  address : String
  privateKey : String
deriving DecidableEq, Repr

/-- Modelled from the spec: the account metadata returned by
`Bank.queryAccount` (account number and sequence as numbers; an account
with no prior history resolves to sequence 0, and proto defaults may
leave either field absent). -/
structure BaseAccount where
  accountNumber : Option Nat
  sequence : Option Nat
deriving DecidableEq, Repr

/-- Modelled from the spec: the transaction object (`types.ProtoTx`, not
among the embedded sources). The body (messages, fee, memo) is opaque to
the signer; at most one public key (with the sequence recorded at
attachment time) and at most one signature are carried, matching the
spec invariant of the single-signer model. -/
structure ProtoTx where
  body : String
  pubKey : Option (String × Option String)
  signature : Option String
deriving DecidableEq, Repr

/-- Modelled from the spec: `ProtoTx.hasPubKey`. -/
def ProtoTx.hasPubKey (tx : ProtoTx) : Bool :=
  tx.pubKey.isSome

/-- Modelled from the spec: `ProtoTx.setPubKey pk seq` attaches the public
key together with the sequence used at signing time. -/
def ProtoTx.setPubKey (tx : ProtoTx) (pk : String) (seq : Option String) : ProtoTx :=
  { tx with pubKey := some (pk, seq) }

/-- Modelled from the spec: `ProtoTx.addSignature` attaches the (single)
signature. -/
def ProtoTx.addSignature (tx : ProtoTx) (sig : String) : ProtoTx :=
  { tx with signature := some sig }

/-- A decoded or raw tag (key/value event annotation of a delivered
transaction). -/
structure Tag where
  key : String
  value : String
deriving DecidableEq, Repr

/-- One phase result of a commit broadcast response: `check_tx` or
`deliver_tx` (fields `tx.ts` reads). -/
structure TxPhase where
  code : Nat
  log : String
  gas_wanted : Option String
  gas_used : Option String
  info : Option String
  tags : Option (List Tag)
deriving DecidableEq, Repr

/-- The commit broadcast response (`types.ResultBroadcastTx`): the fields
`tx.ts` reads. -/
structure ResultBroadcastTx where
  check_tx : Option TxPhase
  deliver_tx : Option TxPhase
  hash : String
  height : Option Nat
deriving DecidableEq, Repr

/-- The async/sync broadcast response (`types.ResultBroadcastTxAsync`):
the fields `tx.ts` reads. A missing `code` is falsy in the source check
`response.code && response.code > 0`. -/
structure ResultBroadcastTxAsync where
  code : Option Nat
  log : String
  hash : String
deriving DecidableEq, Repr

/-- The normalized broadcast result (`types.TxResult`): hash plus optional
delivery-phase fields. -/
structure TxResult where
  hash : String
  height : Option Nat
  gas_wanted : Option String
  gas_used : Option String
  info : Option String
  tags : Option (List Tag)
deriving DecidableEq, Repr

/-- The observable effects of a `sign` call, in order: key-store reads and
network account queries. -/
inductive Eff
  | keyRead (name : String)
  | netQueryAccount (address : String)
deriving DecidableEq, Repr

/-- True when the trace holds a network query. -/
def isNetEff : Eff → Bool
  | Eff.netQueryAccount _ => true
  | Eff.keyRead _ => false

/-- True when a trace contains at least one network query effect. -/
def hasNetEff (tr : List Eff) : Bool :=
  tr.any isNetEff

/-- Modelled from the spec: the RPC method names of the transport port
(`types.RpcMethods`). -/
def RpcMethodBroadcastTxAsync : String := "broadcast_tx_async"

/-- Modelled from the spec: the sync broadcast method name. -/
def RpcMethodBroadcastTxSync : String := "broadcast_tx_sync"

/-- Modelled from the spec: the commit broadcast method name. -/
def RpcMethodBroadcastTxCommit : String := "broadcast_tx_commit"

/-- The environment of external collaborators the `Tx` module calls
through narrow ports: key store (`keyDAO.read` / optional
`keyDAO.decrypt`, a `none` capability models a `KeyDAO` without a
`decrypt` method, and an empty decrypt result models the empty/null
failure outcome), the account query oracle (`auth.queryAccount`), the
crypto primitives (`Crypto.getPublicKeyFromPrivateKey`,
`getSignDoc(...).serializeBinary()`, `Crypto.generateSignature`), the
transaction serializer (`ProtoTx.getData`), the RPC transport responses
per method, and the tag decoder (`Utils.decodeTags`). All are pure
oracles; which of them a call actually exercises is recorded in the
effect trace. -/
structure Env where
  chainId : String
  keyRead : String → Option KeyObj
  decrypt : Option (String → String → String)
  queryAccount : String → BaseAccount
  getPublicKeyFromPrivateKey : String → PubkeyType → String
  serializeSignDoc : Option String → String → ProtoTx → List Nat
  generateSignature : List Nat → String → PubkeyType → String
  txGetData : ProtoTx → List Nat
  requestCommit : List Nat → ResultBroadcastTx
  requestAsyncSync : String → List Nat → ResultBroadcastTxAsync
  decodeTags : List Tag → List Tag

/-- `!baseTx.account_number || !baseTx.sequence` (tx.ts line 136): the
account query is needed when either optional field is falsy. -/
def needResolve (baseTx : BaseTx) : Bool :=
  jsFalsyStr baseTx.account_number || jsFalsyStr baseTx.sequence

/-- tx.ts lines 133 and 136-138: `accountNumber = baseTx.account_number ??
'0'`, then inside the conditional query block, `if (account.accountNumber)
accountNumber = String(account.accountNumber) || '0'` (a zero or absent
resolved number is falsy and leaves the previous value in place). -/
def resolvedAccountNumber (baseTx : BaseTx) (account : BaseAccount) : String :=
  let accountNumber := baseTx.account_number.getD "0"
  if needResolve baseTx then
    match account.accountNumber with
    | some n => if n ≠ 0 then jsOr (toString n) "0" else accountNumber
    | none => accountNumber
  else accountNumber

/-- tx.ts lines 134 and 136-139: `sequence = baseTx.sequence || '0'`, then
inside the conditional query block, `if (account.sequence) sequence =
String(account.sequence) || '0'` (a zero or absent resolved sequence is
falsy and leaves the previous value in place). -/
def resolvedSequence (baseTx : BaseTx) (account : BaseAccount) : String :=
  let sequence := jsOrOpt baseTx.sequence "0"
  if needResolve baseTx then
    match account.sequence with
    | some n => if n ≠ 0 then jsOr (toString n) "0" else sequence
    | none => sequence
  else sequence

/-- `Tx.sign` (tx.ts lines 114-153): validate `from` and `password`,
require the decrypt capability, read the key record, conditionally query
the account (the query oracle is pure, so it is sampled unconditionally
here, but its value is used and the network effect is recorded only when
`needResolve` holds, matching the source control flow), decrypt the
private key (empty result = failure), attach the public key when absent,
and attach the signature over the serialized sign doc. Returns the
outcome together with the effect trace. -/
def sign (env : Env) (stdTx : ProtoTx) (baseTx : BaseTx) :
    Except SdkError ProtoTx × List Eff :=
  if baseTx.from_ = "" then
    (Except.error ⟨"baseTx.from of the key can not be empty", Code.default⟩, [])
  else if baseTx.password = "" then
    (Except.error ⟨"baseTx.password of the key can not be empty", Code.default⟩, [])
  else
    match env.decrypt with
    | none =>
        (Except.error ⟨"Decrypt method of KeyDAO not implemented", Code.panic⟩, [])
    | some decrypt =>
        match env.keyRead baseTx.from_ with
        | none =>
            (Except.error ⟨"Key with name \x27" ++ baseTx.from_ ++ "\x27 not found",
              Code.keyNotFound⟩, [Eff.keyRead baseTx.from_])
        | some keyObj =>
            let account := env.queryAccount keyObj.address
            let accountNumber := resolvedAccountNumber baseTx account
            let sequence := resolvedSequence baseTx account
            let effs :=
              if needResolve baseTx then
                [Eff.keyRead baseTx.from_, Eff.netQueryAccount keyObj.address]
              else
                [Eff.keyRead baseTx.from_]
            let privKey := decrypt keyObj.privateKey baseTx.password
            if privKey = "" then
              (Except.error ⟨"decrypto the private key error", Code.invalidPassword⟩, effs)
            else
              let stdTx1 :=
                if stdTx.hasPubKey then stdTx
                else
                  stdTx.setPubKey
                    (env.getPublicKeyFromPrivateKey privKey baseTx.pubkeyType)
                    (jsOrUndef sequence)
              let signature :=
                env.generateSignature
                  (env.serializeSignDoc (jsOrUndef accountNumber) env.chainId stdTx1)
                  privKey baseTx.pubkeyType
              (Except.ok (stdTx1.addSignature signature), effs)

/-- `Tx.sign_signDoc` (tx.ts lines 165-189): validate name and password,
require the decrypt capability, read the key record, then compute the
signature directly over the caller-supplied sign doc bytes with whatever
`decrypt` returned; the source performs no check on the decrypt result
before calling `Crypto.generateSignature`. -/
def sign_signDoc (env : Env) (signDoc : List Nat) (name password : String)
    (type : PubkeyType) : Except SdkError String :=
  if name = "" then
    Except.error ⟨"Name of the key can not be empty", Code.default⟩
  else if password = "" then
    Except.error ⟨"Password of the key can not be empty", Code.default⟩
  else
    match env.decrypt with
    | none =>
        Except.error ⟨"Decrypt method of KeyDAO not implemented", Code.default⟩
    | some decrypt =>
        match env.keyRead name with
        | none =>
            Except.error ⟨"Key with name \x27" ++ name ++ "\x27 not found",
              Code.keyNotFound⟩
        | some keyObj =>
            let privKey := decrypt keyObj.privateKey password
            Except.ok (env.generateSignature signDoc privKey type)

/-- The response-processing step of `Tx.broadcastTx` (tx.ts lines 274-280):
a present, positive `code` raises an `SdkError` carrying the response log
and code; any other response is returned as-is. -/
def processBroadcastTxResponse (response : ResultBroadcastTxAsync) :
    Except SdkError ResultBroadcastTxAsync :=
  match response.code with
  | some n =>
      if 0 < n then Except.error ⟨response.log, Code.chain n⟩
      else Except.ok response
  | none => Except.ok response

/-- `Tx.broadcastTx` (tx.ts lines 256-281): only the sync and async RPC
methods are accepted; the submission response for the chosen method is
then checked by `processBroadcastTxResponse`. -/
def broadcastTx (env : Env) (txBytes : List Nat) (method : String) :
    Except SdkError ResultBroadcastTxAsync :=
  if method ≠ RpcMethodBroadcastTxSync ∧ method ≠ RpcMethodBroadcastTxAsync then
    Except.error ⟨"Unsupported broadcast method: " ++ method, Code.internal⟩
  else
    processBroadcastTxResponse (env.requestAsyncSync method txBytes)

/-- `Tx.broadcastTxAsync` (tx.ts lines 196-200). -/
def broadcastTxAsync (env : Env) (txBytes : List Nat) :
    Except SdkError ResultBroadcastTxAsync :=
  broadcastTx env txBytes RpcMethodBroadcastTxAsync

/-- `Tx.broadcastTxSync` (tx.ts lines 207-211). -/
def broadcastTxSync (env : Env) (txBytes : List Nat) :
    Except SdkError ResultBroadcastTxAsync :=
  broadcastTx env txBytes RpcMethodBroadcastTxSync

/-- The delivery-phase half of the commit response processing (tx.ts lines
230-246): a present, positive `deliver_tx.code` raises an `SdkError` with
the delivery log and code; otherwise the result is assembled from the
hash, height and the (tag-decoded) delivery fields. -/
def processDeliverPhase (env : Env) (response : ResultBroadcastTx) :
    Except SdkError TxResult :=
  match response.deliver_tx with
  | some d =>
      if 0 < d.code then Except.error ⟨d.log, Code.chain d.code⟩
      else
        Except.ok
          { hash := response.hash
            height := response.height
            gas_wanted := d.gas_wanted
            gas_used := d.gas_used
            info := d.info
            tags := d.tags.map env.decodeTags }
  | none =>
      Except.ok
        { hash := response.hash
          height := response.height
          gas_wanted := none
          gas_used := none
          info := none
          tags := none }

/-- The response-processing step of `Tx.broadcastTxCommit` (tx.ts lines
223-247): the check phase is inspected first — a present, positive
`check_tx.code` raises an `SdkError` with the check log and code, and the
delivery phase is then never reached; otherwise the delivery phase is
processed. -/
def processCommitResponse (env : Env) (response : ResultBroadcastTx) :
    Except SdkError TxResult :=
  match response.check_tx with
  | some c =>
      if 0 < c.code then Except.error ⟨c.log, Code.chain c.code⟩
      else processDeliverPhase env response
  | none => processDeliverPhase env response

/-- `Tx.broadcastTxCommit` (tx.ts lines 218-248). -/
def broadcastTxCommit (env : Env) (txBytes : List Nat) :
    Except SdkError TxResult :=
  processCommitResponse env (env.requestCommit txBytes)

/-- True when the commit response carries a present, positive check-phase
code (the first guard of tx.ts line 225). -/
def checkTxFailed (response : ResultBroadcastTx) : Bool :=
  match response.check_tx with
  | some c => decide (0 < c.code)
  | none => false

/-- `Tx.newTxResult` (tx.ts lines 294-307). -/
def newTxResult (hash : String) (height : Option Nat)
    (deliverTx : Option TxPhase) : TxResult :=
  { hash := hash
    height := height
    gas_wanted := deliverTx.bind TxPhase.gas_wanted
    gas_used := deliverTx.bind TxPhase.gas_used
    info := deliverTx.bind TxPhase.info
    tags := deliverTx.bind TxPhase.tags }

/-- `Tx.broadcast` (tx.ts lines 86-104): serialize the signed transaction,
then dispatch on the (optional) mode — `Commit` and `Sync` have dedicated
arms and every other mode value, including an absent one, falls to the
async arm. The sync and async arms wrap the submission response hash via
`newTxResult` with no height and no delivery phase. -/
def broadcast (env : Env) (signedTx : ProtoTx) (mode : Option BroadcastMode) :
    Except SdkError TxResult :=
  let txBytes := env.txGetData signedTx
  match mode with
  | some BroadcastMode.Commit => broadcastTxCommit env txBytes
  | some BroadcastMode.Sync =>
      (broadcastTxSync env txBytes).map fun response =>
        newTxResult response.hash none none
  | _ =>
      (broadcastTxAsync env txBytes).map fun response =>
        newTxResult response.hash none none

/-- The RPC method the non-commit arms of `broadcast` submit to: sync for
mode `Sync`, async for everything else. -/
def methodOfMode (mode : Option BroadcastMode) : String :=
  match mode with
  | some BroadcastMode.Sync => RpcMethodBroadcastTxSync
  | _ => RpcMethodBroadcastTxAsync

/-- Modelled from the spec: the tag constants of `types.TxType` (the
`types` module is not among the embedded sources); each known operation
kind is named by its tag, and the constants are used only through these
definitions, so their concrete string values are immaterial beyond being
pairwise distinct. -/
def TagMsgSend : String := "MsgSend"

/-- Tag constant of `types.TxType.MsgMultiSend`. -/
def TagMsgMultiSend : String := "MsgMultiSend"

/-- Tag constant of `types.TxType.MsgDelegate`. -/
def TagMsgDelegate : String := "MsgDelegate"

/-- Tag constant of `types.TxType.MsgUndelegate`. -/
def TagMsgUndelegate : String := "MsgUndelegate"

/-- Tag constant of `types.TxType.MsgBeginRedelegate`. -/
def TagMsgBeginRedelegate : String := "MsgBeginRedelegate"

/-- Tag constant of `types.TxType.MsgWithdrawDelegatorReward`. -/
def TagMsgWithdrawDelegatorReward : String := "MsgWithdrawDelegatorReward"

/-- Tag constant of `types.TxType.MsgSetWithdrawAddress`. -/
def TagMsgSetWithdrawAddress : String := "MsgSetWithdrawAddress"

/-- Tag constant of `types.TxType.MsgWithdrawValidatorCommission`. -/
def TagMsgWithdrawValidatorCommission : String := "MsgWithdrawValidatorCommission"

/-- Tag constant of `types.TxType.MsgFundCommunityPool`. -/
def TagMsgFundCommunityPool : String := "MsgFundCommunityPool"

/-- Tag constant of `types.TxType.MsgIssueToken`. -/
def TagMsgIssueToken : String := "MsgIssueToken"

/-- Tag constant of `types.TxType.MsgEditToken`. -/
def TagMsgEditToken : String := "MsgEditToken"

/-- Tag constant of `types.TxType.MsgMintToken`. -/
def TagMsgMintToken : String := "MsgMintToken"

/-- Tag constant of `types.TxType.MsgTransferTokenOwner`. -/
def TagMsgTransferTokenOwner : String := "MsgTransferTokenOwner"

/-- Tag constant of `types.TxType.MsgAddLiquidity`. -/
def TagMsgAddLiquidity : String := "MsgAddLiquidity"

/-- Tag constant of `types.TxType.MsgRemoveLiquidity`. -/
def TagMsgRemoveLiquidity : String := "MsgRemoveLiquidity"

/-- Tag constant of `types.TxType.MsgSwapOrder`. -/
def TagMsgSwapOrder : String := "MsgSwapOrder"

/-- Tag constant of `types.TxType.MsgIssueDenom`. -/
def TagMsgIssueDenom : String := "MsgIssueDenom"

/-- Tag constant of `types.TxType.MsgMintNFT`. -/
def TagMsgMintNFT : String := "MsgMintNFT"

/-- Tag constant of `types.TxType.MsgEditNFT`. -/
def TagMsgEditNFT : String := "MsgEditNFT"

/-- Tag constant of `types.TxType.MsgTransferNFT`. -/
def TagMsgTransferNFT : String := "MsgTransferNFT"

/-- Tag constant of `types.TxType.MsgBurnNFT`. -/
def TagMsgBurnNFT : String := "MsgBurnNFT"

/-- The tags enumerated by the `createMsg` switch (tx.ts lines 316-406),
in source order. -/
def knownTxTypes : List String :=
  [TagMsgSend, TagMsgMultiSend, TagMsgDelegate, TagMsgUndelegate,
   TagMsgBeginRedelegate, TagMsgWithdrawDelegatorReward,
   TagMsgSetWithdrawAddress, TagMsgWithdrawValidatorCommission,
   TagMsgFundCommunityPool, TagMsgIssueToken, TagMsgEditToken,
   TagMsgMintToken, TagMsgTransferTokenOwner, TagMsgAddLiquidity,
   TagMsgRemoveLiquidity, TagMsgSwapOrder, TagMsgIssueDenom,
   TagMsgMintNFT, TagMsgEditNFT, TagMsgTransferNFT, TagMsgBurnNFT]

/-- The three coinswap tags whose switch arms are empty in the source. -/
def coinswapTxTypes : List String :=
  [TagMsgAddLiquidity, TagMsgRemoveLiquidity, TagMsgSwapOrder]

/-- The typed message variants `createMsg` can produce. `empty` is the
initial `let msg: any = {}` object, which the empty coinswap arms leave
untouched; every other variant carries the value handed to the
corresponding constructor. The constructor names match the constructed
classes (the `MsgBeginRedelegate` arm constructs `types.MsgRedelegate`). -/
inductive Msg
  | empty
  | msgSend (value : String)
  | msgMultiSend (value : String)
  | msgDelegate (value : String)
  | msgUndelegate (value : String)
  | msgRedelegate (value : String)
  | msgWithdrawDelegatorReward (value : String)
  | msgSetWithdrawAddress (value : String)
  | msgWithdrawValidatorCommission (value : String)
  | msgFundCommunityPool (value : String)
  | msgIssueToken (value : String)
  | msgEditToken (value : String)
  | msgMintToken (value : String)
  | msgTransferTokenOwner (value : String)
  | msgIssueDenom (value : String)
  | msgMintNFT (value : String)
  | msgEditNFT (value : String)
  | msgTransferNFT (value : String)
  | msgBurnNFT (value : String)
deriving DecidableEq, Repr

/-- The constructor payload of a message: the value the variant was built
from, or `none` for the untouched `empty` placeholder. -/
def Msg.payload : Msg → Option String
  | .empty => none
  | .msgSend v => some v
  | .msgMultiSend v => some v
  | .msgDelegate v => some v
  | .msgUndelegate v => some v
  | .msgRedelegate v => some v
  | .msgWithdrawDelegatorReward v => some v
  | .msgSetWithdrawAddress v => some v
  | .msgWithdrawValidatorCommission v => some v
  | .msgFundCommunityPool v => some v
  | .msgIssueToken v => some v
  | .msgEditToken v => some v
  | .msgMintToken v => some v
  | .msgTransferTokenOwner v => some v
  | .msgIssueDenom v => some v
  | .msgMintNFT v => some v
  | .msgEditNFT v => some v
  | .msgTransferNFT v => some v
  | .msgBurnNFT v => some v

/-- `Tx.createMsg` (tx.ts lines 314-412): dispatch on the tag over the
enumerated kinds in source order. The three coinswap arms are empty in
the source (`break` with no constructor call), so they return the initial
empty object; an unrecognized tag throws `SdkError` with
`CODES.InvalidType`. -/
def createMsg (type_ : String) (value : String) : Except SdkError Msg :=
  if type_ = TagMsgSend then Except.ok (Msg.msgSend value)
  else if type_ = TagMsgMultiSend then Except.ok (Msg.msgMultiSend value)
  else if type_ = TagMsgDelegate then Except.ok (Msg.msgDelegate value)
  else if type_ = TagMsgUndelegate then Except.ok (Msg.msgUndelegate value)
  else if type_ = TagMsgBeginRedelegate then Except.ok (Msg.msgRedelegate value)
  else if type_ = TagMsgWithdrawDelegatorReward then
    Except.ok (Msg.msgWithdrawDelegatorReward value)
  else if type_ = TagMsgSetWithdrawAddress then
    Except.ok (Msg.msgSetWithdrawAddress value)
  else if type_ = TagMsgWithdrawValidatorCommission then
    Except.ok (Msg.msgWithdrawValidatorCommission value)
  else if type_ = TagMsgFundCommunityPool then
    Except.ok (Msg.msgFundCommunityPool value)
  else if type_ = TagMsgIssueToken then Except.ok (Msg.msgIssueToken value)
  else if type_ = TagMsgEditToken then Except.ok (Msg.msgEditToken value)
  else if type_ = TagMsgMintToken then Except.ok (Msg.msgMintToken value)
  else if type_ = TagMsgTransferTokenOwner then
    Except.ok (Msg.msgTransferTokenOwner value)
  else if type_ = TagMsgAddLiquidity then Except.ok Msg.empty
  else if type_ = TagMsgRemoveLiquidity then Except.ok Msg.empty
  else if type_ = TagMsgSwapOrder then Except.ok Msg.empty
  else if type_ = TagMsgIssueDenom then Except.ok (Msg.msgIssueDenom value)
  else if type_ = TagMsgMintNFT then Except.ok (Msg.msgMintNFT value)
  else if type_ = TagMsgEditNFT then Except.ok (Msg.msgEditNFT value)
  else if type_ = TagMsgTransferNFT then Except.ok (Msg.msgTransferNFT value)
  else if type_ = TagMsgBurnNFT then Except.ok (Msg.msgBurnNFT value)
  else Except.error ⟨"not exist tx type", Code.invalidType⟩

/-! ### Concrete fixtures used by witnesses and counterexamples -/

/-- A concrete stored key record. -/
def cKey : KeyObj := ⟨"addrA", "privk"⟩

/-- A concrete environment: the key store holds `cKey` under the name
`alice`; decryption succeeds exactly on the password `pw`; the account
query resolves to account number 4 and sequence 2; the crypto and
transport oracles are simple total functions. -/
def cEnv : Env where
  chainId := "test-1"
  keyRead := fun name => if name = "alice" then some cKey else none
  decrypt := some fun k p => if p = "pw" then "dec-" ++ k else ""
  queryAccount := fun _ => ⟨some 4, some 2⟩
  getPublicKeyFromPrivateKey := fun k _ => "pub-" ++ k
  serializeSignDoc := fun _ _ _ => [1]
  generateSignature := fun _ k _ => "sig-" ++ k
  txGetData := fun _ => [0]
  requestCommit := fun _ => ⟨some ⟨0, "", none, none, none, none⟩,
    some ⟨0, "", none, none, none, none⟩, "H", some 10⟩
  requestAsyncSync := fun _ _ => ⟨some 0, "", "H"⟩
  decodeTags := fun tags => tags

/-- `cEnv` with a decrypt capability that always fails (returns the empty
result), as a wrong password does. -/
def cEnvBadPw : Env := { cEnv with decrypt := some fun _ _ => "" }

/-- `cEnv` with an empty key store. -/
def cEnvNoKey : Env := { cEnv with keyRead := fun _ => none }

/-- `cEnv` where the account query resolves to a fresh account: number 4
but sequence 0. -/
def cEnvSeqZero : Env := { cEnv with queryAccount := fun _ => ⟨some 4, some 0⟩ }

/-- `cEnv` where the commit broadcast response fails both phases: check
code 5 with log `cfail`, delivery code 7 with log `dfail`. -/
def cEnvCommitFail : Env :=
  { cEnv with requestCommit := fun _ =>
      ⟨some ⟨5, "cfail", none, none, none, none⟩,
        some ⟨7, "dfail", none, none, none, none⟩, "H", some 3⟩ }

/-- A concrete unsigned transaction with no public key attached. -/
def cTxNoPub : ProtoTx := ⟨"B", none, none⟩

/-- A concrete unsigned transaction that already carries a public key. -/
def cTxWithPub : ProtoTx := ⟨"B", some ("PK", some "1"), none⟩

/-- Base parameters with both nonce fields present. -/
def cBase : BaseTx := ⟨"alice", "pw", some "5", some "2", PubkeyType.secp256k1, none⟩

/-- Base parameters with both nonce fields present but a wrong password. -/
def cBaseBadPw : BaseTx := ⟨"alice", "bad", some "5", some "2", PubkeyType.secp256k1, none⟩

/-- Base parameters with both nonce fields absent and a wrong password. -/
def cBaseBadPwNoNonce : BaseTx := ⟨"alice", "bad", none, none, PubkeyType.secp256k1, none⟩

/-- Base parameters with the account number absent but a sequence supplied. -/
def cBaseSeq7 : BaseTx := ⟨"alice", "pw", none, some "7", PubkeyType.secp256k1, none⟩

/-! ### Helper lemmas -/

/-- `Nat.toDigitsCore` never shrinks a nonempty accumulator to nil. -/
theorem toDigitsCore_ne_nil (b : Nat) :
    ∀ (f n : Nat) (ds : List Char), ds ≠ [] → Nat.toDigitsCore b f n ds ≠ [] := by
  intro f
  induction f with
  | zero => intro n ds h; simpa [Nat.toDigitsCore] using h
  | succ f ih =>
    intro n ds h
    simp only [Nat.toDigitsCore]
    split
    · simp
    · exact ih _ _ (by simp)

/-- `Nat.toDigits` is never nil. -/
theorem toDigits_ne_nil (b n : Nat) : Nat.toDigits b n ≠ [] := by
  show Nat.toDigitsCore b (n + 1) n [] ≠ []
  simp only [Nat.toDigitsCore]
  split
  · simp
  · exact toDigitsCore_ne_nil _ _ _ _ (by simp)

/-- The decimal rendering of a natural number is never the empty string
(so the JavaScript fallback in `String(n) || '0'` never fires). -/
theorem natToString_ne_empty (n : Nat) : toString n ≠ "" := by
  intro h
  apply toDigits_ne_nil 10 n
  have h2 : (Nat.toDigits 10 n).asString.data = String.data "" := congrArg String.data h
  simpa [List.asString] using h2

/-! ### Claim theorems -/

/-- C5: for every environment, transaction and baseTx, `sign` fails with a
ValidationError (an `SdkError` carrying the default code) whenever
`baseTx.from` or `baseTx.password` is empty, and the failure happens
before any key-store lookup or network activity: the effect trace of the
call is empty. -/
theorem sign_validation_first (env : Env) (stdTx : ProtoTx) (baseTx : BaseTx)
    (h : baseTx.from_ = "" ∨ baseTx.password = "") :
    (∃ e, (sign env stdTx baseTx).1 = Except.error e ∧ e.code = Code.default) ∧
      (sign env stdTx baseTx).2 = [] := by
  by_cases hf : baseTx.from_ = ""
  · refine ⟨⟨⟨"baseTx.from of the key can not be empty", Code.default⟩, ?_, rfl⟩, ?_⟩ <;>
      simp [sign, hf]
  · rcases h with h | h
    · exact absurd h hf
    · refine ⟨⟨⟨"baseTx.password of the key can not be empty", Code.default⟩, ?_, rfl⟩, ?_⟩ <;>
        simp [sign, hf, h]

/-- Witness for C5 at a concrete input: with an empty `from`, the call
performs no key-store read and no network query. -/
theorem sign_validation_first_w :
    (sign cEnv cTxNoPub ⟨"", "pw", some "5", some "2", PubkeyType.secp256k1, none⟩).2 = [] :=
  (sign_validation_first cEnv cTxNoPub
    ⟨"", "pw", some "5", some "2", PubkeyType.secp256k1, none⟩ (Or.inl rfl)).2

/-- C6 counterexample: the key store holds no record at all, yet `sign`
with an empty password fails with the password ValidationError, not with
`NotFoundError`; «regardless of the values of all other input fields» is
therefore false. -/
theorem sign_key_not_found_cex :
    cEnvNoKey.keyRead "alice" = none ∧
      sign cEnvNoKey cTxNoPub ⟨"alice", "", some "5", some "2", PubkeyType.secp256k1, none⟩ =
        (Except.error ⟨"baseTx.password of the key can not be empty", Code.default⟩, []) :=
  ⟨rfl, rfl⟩

/-- C6 (amended): provided `from` and `password` are non-empty and the
decrypt capability is configured, `sign` fails with `NotFoundError`
(`CODES.KeyNotFound`) whenever the key store has no record for `from`,
regardless of the remaining fields, after exactly the key-store read and
before any network activity. -/
theorem sign_key_not_found (env : Env) (stdTx : ProtoTx) (baseTx : BaseTx)
    (dec : String → String → String)
    (hd : env.decrypt = some dec)
    (hf : baseTx.from_ ≠ "") (hp : baseTx.password ≠ "")
    (hk : env.keyRead baseTx.from_ = none) :
    (sign env stdTx baseTx).1 =
        Except.error ⟨"Key with name \x27" ++ baseTx.from_ ++ "\x27 not found",
          Code.keyNotFound⟩ ∧
      (sign env stdTx baseTx).2 = [Eff.keyRead baseTx.from_] := by
  constructor <;> simp [sign, hf, hp, hd, hk]

/-- Witness for C6 (amended) at a concrete input. -/
theorem sign_key_not_found_w :
    (sign cEnvNoKey cTxNoPub cBase).1 =
        Except.error ⟨"Key with name \x27" ++ "alice" ++ "\x27 not found",
          Code.keyNotFound⟩ ∧
      (sign cEnvNoKey cTxNoPub cBase).2 = [Eff.keyRead "alice"] :=
  sign_key_not_found cEnvNoKey cTxNoPub cBase (fun k p => if p = "pw" then "dec-" ++ k else "")
    rfl (by decide) (by decide) rfl

/-- C1 counterexample: with a decrypt capability that fails (empty
result), `sign_signDoc` does not fail with `AuthError(InvalidPassword)`;
it proceeds and returns a signature computed with the empty decryption
result. -/
theorem sign_signDoc_decrypt_fail_cex :
    (cEnvBadPw.decrypt.getD fun _ _ => "x") cKey.privateKey "bad" = "" ∧
      sign_signDoc cEnvBadPw [2, 3] "alice" "bad" PubkeyType.secp256k1 = Except.ok "sig-" :=
  ⟨rfl, rfl⟩

/-- C1 (amended): `sign_signDoc` performs the validation, capability and
key-lookup steps, but not the step-5 decryption-failure check: whenever
the name and password are non-empty, the decrypt capability is
configured and the key record exists, it returns the raw signature
computed over the supplied SignDoc bytes from whatever the decryption
returned — even when that result is empty (failed decryption), so no
`AuthError(InvalidPassword)` is ever raised. -/
theorem sign_signDoc_skips_decrypt_check (env : Env) (signDoc : List Nat)
    (name password : String) (type : PubkeyType)
    (dec : String → String → String) (keyObj : KeyObj)
    (hd : env.decrypt = some dec) (hn : name ≠ "") (hp : password ≠ "")
    (hk : env.keyRead name = some keyObj) :
    sign_signDoc env signDoc name password type =
      Except.ok (env.generateSignature signDoc (dec keyObj.privateKey password) type) := by
  simp [sign_signDoc, hn, hp, hd, hk]

/-- Witness for C1 (amended) at a concrete input with a failing
decryption. -/
theorem sign_signDoc_skips_decrypt_check_w :
    sign_signDoc cEnvBadPw [2, 3] "alice" "bad" PubkeyType.secp256k1 =
      Except.ok (cEnvBadPw.generateSignature [2, 3]
        ((fun _ _ => "") cKey.privateKey "bad") PubkeyType.secp256k1) :=
  sign_signDoc_skips_decrypt_check cEnvBadPw [2, 3] "alice" "bad" PubkeyType.secp256k1
    (fun _ _ => "") cKey rfl (by decide) (by decide) rfl

/-- C2 counterexample: with both nonce fields absent and a wrong password,
`sign` issues the account network query first, and only then raises
`AuthError(InvalidPassword)` — the trace of the failed call contains a
network query, so the error is not raised before all network activity. -/
theorem sign_auth_after_query_cex :
    sign cEnv cTxNoPub cBaseBadPwNoNonce =
      (Except.error ⟨"decrypto the private key error", Code.invalidPassword⟩,
        [Eff.keyRead "alice", Eff.netQueryAccount "addrA"]) :=
  rfl

/-- C2 (amended): for every `sign` invocation, validation errors (default
code), the config error (`Panic`) and the not-found error
(`KeyNotFound`) are raised with no network query in the trace; the
decryption error (`InvalidPassword`) is raised with no preceding network
query exactly when neither nonce field had to be resolved — when
`account_number` or `sequence` is absent, the account query is issued
before the decryption check, so the trace of such a failed call does
contain a network query. -/
theorem sign_error_network_order (env : Env) (stdTx : ProtoTx) (baseTx : BaseTx)
    (e : SdkError) (he : (sign env stdTx baseTx).1 = Except.error e) :
    ((e.code = Code.default ∨ e.code = Code.panic ∨ e.code = Code.keyNotFound) →
        hasNetEff (sign env stdTx baseTx).2 = false) ∧
      (e.code = Code.invalidPassword →
        hasNetEff (sign env stdTx baseTx).2 = needResolve baseTx) := by
  by_cases hf : baseTx.from_ = ""
  · simp [sign, hf] at he ⊢
    cases he
    simp [hasNetEff]
  · by_cases hp : baseTx.password = ""
    · simp [sign, hf, hp] at he ⊢
      cases he
      simp [hasNetEff]
    · cases hd : env.decrypt with
      | none =>
        simp [sign, hf, hp, hd] at he ⊢
        cases he
        simp [hasNetEff]
      | some dec =>
        cases hk : env.keyRead baseTx.from_ with
        | none =>
          simp [sign, hf, hp, hd, hk] at he ⊢
          cases he
          simp [hasNetEff, isNetEff]
        | some keyObj =>
          by_cases hpk : dec keyObj.privateKey baseTx.password = ""
          · simp [sign, hf, hp, hd, hk, hpk] at he ⊢
            cases he
            constructor
            · intro hcode
              simp at hcode
            · intro _
              cases hnr : needResolve baseTx <;>
                simp [hnr, hasNetEff, isNetEff]
          · simp [sign, hf, hp, hd, hk, hpk] at he

/-- Witness for C2 (amended) at a concrete input: with both nonce fields
present and a failing decryption, the trace matches `needResolve`, which
is false there. -/
theorem sign_error_network_order_w :
    hasNetEff (sign cEnv cTxNoPub cBaseBadPw).2 = needResolve cBaseBadPw :=
  (sign_error_network_order cEnv cTxNoPub cBaseBadPw
    ⟨"decrypto the private key error", Code.invalidPassword⟩ rfl).2 rfl

/-- C4 counterexample: with the account number absent and the sequence
supplied as `7`, the resolver is invoked and resolves the account to
sequence 0 (a fresh account), yet the transaction is signed with
sequence `7` — the zero resolved sequence is falsy, so it is not filled
in, contradicting «both account number and sequence are filled from the
resolved account». -/
theorem sign_resolver_fill_cex :
    (cEnvSeqZero.queryAccount "addrA").sequence = some 0 ∧
      sign cEnvSeqZero cTxNoPub cBaseSeq7 =
        (Except.ok ⟨"B", some ("pub-dec-privk", some "7"), some "sig-dec-privk"⟩,
          [Eff.keyRead "alice", Eff.netQueryAccount "addrA"]) :=
  ⟨rfl, rfl⟩

/-- C4 (amended): once validation, capability and key lookup pass, `sign`
issues the account query exactly when `account_number` or `sequence` is
falsy (absent or empty); when the query is issued and both resolved
fields are present and non-zero, both the account number and the
sequence used for signing are taken from the resolved account; but a
resolved sequence of zero is falsy and leaves the baseTx-derived value
in place instead of being filled in. -/
theorem sign_resolver_invocation (env : Env) (stdTx : ProtoTx) (baseTx : BaseTx)
    (dec : String → String → String) (keyObj : KeyObj)
    (hd : env.decrypt = some dec) (hf : baseTx.from_ ≠ "") (hp : baseTx.password ≠ "")
    (hk : env.keyRead baseTx.from_ = some keyObj) :
    hasNetEff (sign env stdTx baseTx).2 = needResolve baseTx ∧
      (∀ n m, needResolve baseTx = true →
        (env.queryAccount keyObj.address).accountNumber = some n → n ≠ 0 →
        (env.queryAccount keyObj.address).sequence = some m → m ≠ 0 →
        resolvedAccountNumber baseTx (env.queryAccount keyObj.address) = toString n ∧
          resolvedSequence baseTx (env.queryAccount keyObj.address) = toString m) ∧
      ((env.queryAccount keyObj.address).sequence = some 0 →
        resolvedSequence baseTx (env.queryAccount keyObj.address) =
          jsOrOpt baseTx.sequence "0") := by
  refine ⟨?_, ?_, ?_⟩
  · by_cases hpk : dec keyObj.privateKey baseTx.password = "" <;>
      [skip; skip] <;>
      cases hnr : needResolve baseTx <;>
      simp [sign, hf, hp, hd, hk, hpk, hnr, hasNetEff, isNetEff]
  · intro n m hnr han hn0 ham hm0
    constructor
    · simp [resolvedAccountNumber, hnr, han, hn0, jsOr, natToString_ne_empty n]
    · simp [resolvedSequence, hnr, ham, hm0, jsOr, natToString_ne_empty m]
  · intro h0
    cases hnr : needResolve baseTx
    · simp [resolvedSequence, hnr]
    · simp [resolvedSequence, hnr, h0]

/-- Witness for C4 (amended) at a concrete input: the account resolves to
sequence 0, and the sequence used is the baseTx-derived one. -/
theorem sign_resolver_invocation_w :
    resolvedSequence cBaseSeq7 (cEnvSeqZero.queryAccount cKey.address) =
      jsOrOpt cBaseSeq7.sequence "0" :=
  (sign_resolver_invocation cEnvSeqZero cTxNoPub cBaseSeq7
    (fun k p => if p = "pw" then "dec-" ++ k else "") cKey
    rfl (by decide) (by decide) rfl).2.2 rfl

/-- C7: whenever `sign` succeeds, the returned transaction carries exactly
one signature and exactly one public key (the model carries at most one
of each, and both are present on success); a transaction that already
carried a public key keeps it unchanged; and no field other than the
public key and the signature is modified (the body is preserved). -/
theorem sign_attaches_once (env : Env) (stdTx : ProtoTx) (baseTx : BaseTx)
    (res : ProtoTx) (tr : List Eff)
    (h : sign env stdTx baseTx = (Except.ok res, tr)) :
    res.signature.isSome = true ∧ res.pubKey.isSome = true ∧
      (∀ p, stdTx.pubKey = some p → res.pubKey = some p) ∧
      res.body = stdTx.body := by
  by_cases hf : baseTx.from_ = ""
  · simp [sign, hf] at h
  · by_cases hp : baseTx.password = ""
    · simp [sign, hf, hp] at h
    · cases hd : env.decrypt with
      | none => simp [sign, hf, hp, hd] at h
      | some dec =>
        cases hk : env.keyRead baseTx.from_ with
        | none => simp [sign, hf, hp, hd, hk] at h
        | some keyObj =>
          by_cases hpk : dec keyObj.privateKey baseTx.password = ""
          · simp [sign, hf, hp, hd, hk, hpk] at h
          · simp only [sign, if_neg hf, if_neg hp, hd, hk, if_neg hpk] at h
            obtain ⟨h1, h2⟩ := Prod.mk.injEq .. ▸ h
            have hres := (Except.ok.injEq .. ▸ h1 : _ = res)
            subst hres
            cases hpub : stdTx.pubKey with
            | none =>
                simp [ProtoTx.hasPubKey, ProtoTx.setPubKey, ProtoTx.addSignature, hpub]
            | some p =>
                simp [ProtoTx.hasPubKey, ProtoTx.setPubKey, ProtoTx.addSignature, hpub]

/-- Witness for C7 at a concrete input: signing an already-pubkey-bearing
transaction yields exactly one signature. -/
theorem sign_attaches_once_w :
    (ProtoTx.mk "B" (some ("PK", some "1")) (some "sig-dec-privk")).signature.isSome = true :=
  (sign_attaches_once cEnv cTxWithPub cBase
    (ProtoTx.mk "B" (some ("PK", some "1")) (some "sig-dec-privk"))
    [Eff.keyRead "alice"] rfl).1

/-- C3 counterexample: the coinswap tag `MsgAddLiquidity` is inside the
enumerated set (no `TypeError` is raised), but `createMsg` returns the
untouched empty placeholder, not a typed variant constructed from the
supplied value — two different values yield the same message. -/
theorem createMsg_coinswap_untyped_cex :
    createMsg TagMsgAddLiquidity "v1" = Except.ok Msg.empty ∧
      Msg.payload Msg.empty = none ∧
      createMsg TagMsgAddLiquidity "v1" = createMsg TagMsgAddLiquidity "v2" :=
  ⟨rfl, rfl, rfl⟩

/-- A tag outside the enumerated set falls through every switch arm to the
default `InvalidType` error. -/
theorem createMsg_unknown (type_ value : String) (h : type_ ∉ knownTxTypes) :
    createMsg type_ value = Except.error ⟨"not exist tx type", Code.invalidType⟩ := by
  simp only [knownTxTypes, List.mem_cons, List.not_mem_nil, or_false, not_or] at h
  obtain ⟨h1, h2, h3, h4, h5, h6, h7, h8, h9, h10, h11, h12, h13, h14, h15, h16, h17,
    h18, h19, h20, h21⟩ := h
  simp [createMsg, h1, h2, h3, h4, h5, h6, h7, h8, h9, h10, h11, h12, h13, h14, h15,
    h16, h17, h18, h19, h20, h21]

/-- Every enumerated tag is accepted: a coinswap tag yields the empty
placeholder, and every other tag yields the typed variant carrying the
supplied value. -/
theorem createMsg_known_cases (value : String) :
    ∀ t ∈ knownTxTypes,
      (t ∈ coinswapTxTypes ∧ createMsg t value = Except.ok Msg.empty) ∨
        (t ∉ coinswapTxTypes ∧
          ∃ m, createMsg t value = Except.ok m ∧ m.payload = some value) := by
  intro t ht
  simp only [knownTxTypes, List.mem_cons, List.not_mem_nil, or_false] at ht
  rcases ht with rfl | rfl | rfl | rfl | rfl | rfl | rfl | rfl | rfl | rfl | rfl |
    rfl | rfl | rfl | rfl | rfl | rfl | rfl | rfl | rfl | rfl
  all_goals first
    | exact Or.inl ⟨by decide, rfl⟩
    | exact Or.inr ⟨by decide, _, rfl, rfl⟩

/-- C3 (amended): `createMsg` fails with `TypeError(InvalidType)` exactly
for tags outside the enumerated set; every enumerated tag other than the
three coinswap kinds yields a typed variant carrying the supplied value;
the three coinswap kinds (`MsgAddLiquidity`, `MsgRemoveLiquidity`,
`MsgSwapOrder`) are accepted but yield the untouched empty placeholder,
which carries no value. -/
theorem createMsg_tag_dispatch (type_ value : String) :
    (createMsg type_ value = Except.error ⟨"not exist tx type", Code.invalidType⟩ ↔
        type_ ∉ knownTxTypes) ∧
      (type_ ∈ knownTxTypes → type_ ∉ coinswapTxTypes →
        ∃ m, createMsg type_ value = Except.ok m ∧ m.payload = some value) ∧
      (type_ ∈ coinswapTxTypes → createMsg type_ value = Except.ok Msg.empty) := by
  refine ⟨⟨fun herr hmem => ?_, fun h => createMsg_unknown type_ value h⟩,
    fun hmem hcs => ?_, fun hcs => ?_⟩
  · rcases createMsg_known_cases value type_ hmem with ⟨_, hok⟩ | ⟨_, _, hok, _⟩ <;>
      rw [herr] at hok <;> simp at hok
  · rcases createMsg_known_cases value type_ hmem with ⟨hcs2, _⟩ | ⟨_, hm⟩
    · exact absurd hcs2 hcs
    · exact hm
  · have hmem : type_ ∈ knownTxTypes := by
      simp only [coinswapTxTypes, List.mem_cons, List.not_mem_nil, or_false] at hcs
      rcases hcs with rfl | rfl | rfl <;> decide
    rcases createMsg_known_cases value type_ hmem with ⟨_, hok⟩ | ⟨hns, _⟩
    · exact hok
    · exact absurd hcs hns

/-- Witness for C3 (amended) at a concrete input: a coinswap tag is
accepted and yields the empty placeholder. -/
theorem createMsg_tag_dispatch_w :
    createMsg TagMsgAddLiquidity "v" = Except.ok Msg.empty :=
  (createMsg_tag_dispatch TagMsgAddLiquidity "v").2.2 (by decide)

/-- C8: under commit mode the check phase is inspected first and the
delivery phase second; a positive check-phase code fails the call with a
`ChainError` carrying exactly the check log and code — the result then
carries no height, gas or tags, and is independent of whatever the
delivery phase holds; when the check phase does not fail, a positive
delivery-phase code fails the call with the delivery log and code. -/
theorem broadcastTxCommit_phase_errors (env : Env) (txBytes : List Nat) (c : TxPhase) :
    ((env.requestCommit txBytes).check_tx = some c → 0 < c.code →
        broadcastTxCommit env txBytes = Except.error ⟨c.log, Code.chain c.code⟩ ∧
          ∀ d, processCommitResponse env { env.requestCommit txBytes with deliver_tx := d } =
            Except.error ⟨c.log, Code.chain c.code⟩) ∧
      (checkTxFailed (env.requestCommit txBytes) = false →
        (env.requestCommit txBytes).deliver_tx = some c → 0 < c.code →
        broadcastTxCommit env txBytes = Except.error ⟨c.log, Code.chain c.code⟩) := by
  constructor
  · intro hc hpos
    constructor
    · simp [broadcastTxCommit, processCommitResponse, hc, hpos]
    · intro d
      simp [processCommitResponse, hc, hpos]
  · intro hcf hd hpos
    cases hc : (env.requestCommit txBytes).check_tx with
    | none =>
        simp [broadcastTxCommit, processCommitResponse, processDeliverPhase, hc, hd, hpos]
    | some c2 =>
        have hc2 : ¬ 0 < c2.code := by
          simpa [checkTxFailed, hc] using hcf
        simp [broadcastTxCommit, processCommitResponse, processDeliverPhase,
          hc, hc2, hd, hpos]

/-- Witness for C8 at a concrete input: both phases carry positive codes
and the result is the check-phase error. -/
theorem broadcastTxCommit_phase_errors_w :
    broadcastTxCommit cEnvCommitFail [0] = Except.error ⟨"cfail", Code.chain 5⟩ :=
  ((broadcastTxCommit_phase_errors cEnvCommitFail [0]
    ⟨5, "cfail", none, none, none, none⟩).1 rfl (by decide)).1

/-- C9: under modes Async and Sync, `broadcast` is exactly the submission
path — the response of the single submission request processed by
`processBroadcastTxResponse`, whose only error check is the response's
own code (a present positive code yields a `ChainError` with that
response's log and code, and nothing else is inspected), and a success
is wrapped by `newTxResult` with the response hash and every
delivery-phase field (height, gas, info, tags) absent. -/
theorem broadcast_submission_only (env : Env) (signedTx : ProtoTx)
    (mode : Option BroadcastMode)
    (h : mode = some BroadcastMode.Async ∨ mode = some BroadcastMode.Sync) :
    broadcast env signedTx mode =
      (processBroadcastTxResponse
          (env.requestAsyncSync (methodOfMode mode) (env.txGetData signedTx))).map
        (fun response => newTxResult response.hash none none) ∧
      (∀ r : ResultBroadcastTxAsync,
        processBroadcastTxResponse r = Except.ok r ∨
          ∃ n, r.code = some n ∧ 0 < n ∧
            processBroadcastTxResponse r = Except.error ⟨r.log, Code.chain n⟩) ∧
      (∀ hs, newTxResult hs none none =
        TxResult.mk hs none none none none none) := by
  refine ⟨?_, ?_, ?_⟩
  · rcases h with h | h <;> subst h <;> rfl
  · intro r
    cases hc : r.code with
    | none => left; simp [processBroadcastTxResponse, hc]
    | some n =>
        by_cases hn : 0 < n
        · exact Or.inr ⟨n, rfl, hn, by simp [processBroadcastTxResponse, hc, hn]⟩
        · left; simp [processBroadcastTxResponse, hc, hn]
  · intro hs; rfl

/-- Witness for C9 at a concrete input: mode Async is exactly the
submission path. -/
theorem broadcast_submission_only_w :
    broadcast cEnv cTxNoPub (some BroadcastMode.Async) =
      (processBroadcastTxResponse
          (cEnv.requestAsyncSync (methodOfMode (some BroadcastMode.Async))
            (cEnv.txGetData cTxNoPub))).map
        (fun response => newTxResult response.hash none none) :=
  (broadcast_submission_only cEnv cTxNoPub (some BroadcastMode.Async) (Or.inl rfl)).1

/-- C10: `broadcast` with any mode that is neither Commit nor Sync —
including the absent mode — behaves exactly like mode Async. -/
theorem broadcast_default_async (env : Env) (signedTx : ProtoTx)
    (mode : Option BroadcastMode)
    (h1 : mode ≠ some BroadcastMode.Commit) (h2 : mode ≠ some BroadcastMode.Sync) :
    broadcast env signedTx mode = broadcast env signedTx (some BroadcastMode.Async) := by
  cases mode with
  | none => rfl
  | some m =>
    cases m with
    | Commit => exact absurd rfl h1
    | Sync => exact absurd rfl h2
    | Async => rfl

/-- Witness for C10 at a concrete input: an omitted mode dispatches like
Async. -/
theorem broadcast_default_async_w :
    broadcast cEnv cTxNoPub none = broadcast cEnv cTxNoPub (some BroadcastMode.Async) :=
  broadcast_default_async cEnv cTxNoPub none (by simp) (by simp)

end IrisSdk
